import Mathlib

/-!
Verification of the product-lookup and nutrient-normalization layer of the
calorie-finder application (source: `src/main2.py`).

The embedding is shallow: Python dictionaries become association lists over a
JSON-like value type `JVal`; Python `dict.get` (which conflates a missing key
with a stored `None`) becomes `pyGet`, returning `JVal.null` in both cases;
the Python `or` operator becomes `pyOr`, which selects its first operand when
it is truthy; the worker thread `SearchWorker.run` becomes a pure function
from the outcome of the single network call to the signal it emits; the Qt
widget state touched by the coordinator's handlers becomes the record
`UIState`; signal connections and worker completions become an explicit
event-step function on `AppState`.
-/

set_option autoImplicit false

/-- JSON-like values as decoded by `r.json()`: Python `None`, booleans,
numbers, strings, lists and dictionaries. -/
inductive JVal where
  | null
  | bool (b : Bool)
  | num (n : Int)
  | str (s : String)
  | arr (xs : List JVal)
  | obj (fields : List (String × JVal))

/-- Python truthiness of a decoded JSON value: `None`, `False`, `0`, `""`,
`[]` and `{}` are falsy, everything else truthy. -/
def JVal.truthy : JVal → Bool
  | .null => false
  | .bool b => b
  | .num n => n != 0
  | .str s => s != ""
  | .arr xs => !xs.isEmpty
  | .obj fs => !fs.isEmpty

/-- Whether a value is Python `None`. -/
def JVal.isNull : JVal → Bool
  | .null => true
  | _ => false

/-- First-match lookup in an association list (Python dictionaries have unique
keys, so first match is the dictionary lookup). -/
def jlookup (k : String) : List (String × JVal) → Option JVal
  | [] => none
  | (k2, v) :: rest => if k2 = k then some v else jlookup k rest

/-- Python `d.get(k)`: the stored value, or `None` when the key is absent.
A stored `None` and an absent key are indistinguishable, as in Python. -/
def pyGet (d : List (String × JVal)) (k : String) : JVal :=
  (jlookup k d).getD JVal.null

/-- Python `a or b`: `a` when `a` is truthy, otherwise `b`. -/
def pyOr (a b : JVal) : JVal :=
  if a.truthy then a else b

/-- The eight-entry dictionary literal built inside `extract_kcal`
(`src/main2.py` lines 56-65), before the `is not None` comprehension filter. -/
def extract_kcal_data (nutriments : List (String × JVal)) : List (String × JVal) :=
  [ ("kcal_100g", pyOr (pyGet nutriments "energy-kcal_100g") (pyGet nutriments "energy-kcal_value")),
    ("protein_100g", pyGet nutriments "proteins_100g"),
    ("fat_100g", pyGet nutriments "fat_100g"),
    ("carbs_100g", pyGet nutriments "carbohydrates_100g"),
    ("kcal_serving", pyGet nutriments "energy-kcal_serving"),
    ("protein_serving", pyGet nutriments "proteins_serving"),
    ("fat_serving", pyGet nutriments "fat_serving"),
    ("carbs_serving", pyGet nutriments "carbohydrates_serving") ]

/-- `extract_kcal` (`src/main2.py` lines 50-66): build the eight-entry
dictionary and keep only the entries whose value is not `None`
(`{k: v for k, v in data.items() if v is not None}`). -/
def extract_kcal (nutriments : List (String × JVal)) : List (String × JVal) :=
  (extract_kcal_data nutriments).filter (fun p => !p.2.isNull)

/-! ### Association-list lemmas -/

theorem jlookup_none_of_not_mem (k : String) :
    ∀ d : List (String × JVal), k ∉ d.map Prod.fst → jlookup k d = none := by
  intro d
  induction d with
  | nil => intro _; rfl
  | cons hd tl ih =>
    intro h
    obtain ⟨k2, v⟩ := hd
    simp only [List.map_cons, List.mem_cons, not_or] at h
    obtain ⟨h1, h2⟩ := h
    have hk : k2 ≠ k := fun he => h1 he.symm
    simp [jlookup, hk, ih h2]

theorem jlookup_filter_none (k : String) (p : String × JVal → Bool) :
    ∀ d : List (String × JVal), jlookup k d = none → jlookup k (d.filter p) = none := by
  intro d
  induction d with
  | nil => intro _; rfl
  | cons hd tl ih =>
    intro h
    obtain ⟨k2, v⟩ := hd
    by_cases hk : k2 = k
    · simp [jlookup, hk] at h
    · simp only [jlookup, hk, if_false] at h
      rw [List.filter_cons]
      by_cases hp : p (k2, v)
      · simp only [hp, if_true]
        simp [jlookup, hk, ih h]
      · simp only [hp, if_false]
        exact ih h

/-- Looking a key up in the not-`None` filtration of an association list with
distinct keys: the entry survives exactly when its value is not `None`. -/
theorem jlookup_filter_isNull (k : String) :
    ∀ d : List (String × JVal), (d.map Prod.fst).Nodup →
      jlookup k (d.filter (fun p => !p.2.isNull)) =
        match jlookup k d with
        | none => none
        | some v => if v.isNull then none else some v := by
  intro d
  induction d with
  | nil => intro _; rfl
  | cons hd tl ih =>
    intro hnd
    obtain ⟨k2, v⟩ := hd
    rw [List.map_cons, List.nodup_cons] at hnd
    obtain ⟨hmem, hnd'⟩ := hnd
    by_cases hk : k2 = k
    · subst hk
      cases hnull : v.isNull with
      | true =>
        have hdrop : ((k2, v) :: tl).filter (fun p => !p.2.isNull) =
            tl.filter (fun p => !p.2.isNull) := by
          simp [List.filter_cons, hnull]
        rw [hdrop]
        have htl : jlookup k2 tl = none := jlookup_none_of_not_mem k2 tl hmem
        rw [jlookup_filter_none k2 _ tl htl]
        simp [jlookup, hnull]
      | false =>
        have hkeep : ((k2, v) :: tl).filter (fun p => !p.2.isNull) =
            (k2, v) :: tl.filter (fun p => !p.2.isNull) := by
          simp [List.filter_cons, hnull]
        rw [hkeep]
        simp [jlookup, hnull]
    · have hstep : jlookup k (((k2, v) :: tl).filter (fun p => !p.2.isNull)) =
          jlookup k (tl.filter (fun p => !p.2.isNull)) := by
        rw [List.filter_cons]
        by_cases hp : (!v.isNull) = true
        · simp only [hp, if_true]
          simp [jlookup, hk]
        · simp only [hp]
          simp
      rw [hstep, ih hnd']
      simp [jlookup, hk]

/-! ### Characterization of the normalizer's output fields -/

theorem extract_kcal_data_keys (raw : List (String × JVal)) :
    (extract_kcal_data raw).map Prod.fst =
      ["kcal_100g", "protein_100g", "fat_100g", "carbs_100g",
       "kcal_serving", "protein_serving", "fat_serving", "carbs_serving"] := rfl

theorem extract_kcal_lookup (k : String) (raw : List (String × JVal)) :
    jlookup k (extract_kcal raw) =
      match jlookup k (extract_kcal_data raw) with
      | none => none
      | some v => if v.isNull then none else some v := by
  have hnd : ((extract_kcal_data raw).map Prod.fst).Nodup := by
    rw [extract_kcal_data_keys]; decide
  exact jlookup_filter_isNull k (extract_kcal_data raw) hnd

theorem extract_kcal_kcal_100g (raw : List (String × JVal)) :
    jlookup "kcal_100g" (extract_kcal raw) =
      (if (pyOr (pyGet raw "energy-kcal_100g") (pyGet raw "energy-kcal_value")).isNull
       then none
       else some (pyOr (pyGet raw "energy-kcal_100g") (pyGet raw "energy-kcal_value"))) := by
  rw [extract_kcal_lookup]; rfl

theorem extract_kcal_protein_100g (raw : List (String × JVal)) :
    jlookup "protein_100g" (extract_kcal raw) =
      (if (pyGet raw "proteins_100g").isNull then none else some (pyGet raw "proteins_100g")) := by
  rw [extract_kcal_lookup]; rfl

theorem extract_kcal_fat_100g (raw : List (String × JVal)) :
    jlookup "fat_100g" (extract_kcal raw) =
      (if (pyGet raw "fat_100g").isNull then none else some (pyGet raw "fat_100g")) := by
  rw [extract_kcal_lookup]; rfl

theorem extract_kcal_carbs_100g (raw : List (String × JVal)) :
    jlookup "carbs_100g" (extract_kcal raw) =
      (if (pyGet raw "carbohydrates_100g").isNull then none else some (pyGet raw "carbohydrates_100g")) := by
  rw [extract_kcal_lookup]; rfl

theorem extract_kcal_kcal_serving (raw : List (String × JVal)) :
    jlookup "kcal_serving" (extract_kcal raw) =
      (if (pyGet raw "energy-kcal_serving").isNull then none else some (pyGet raw "energy-kcal_serving")) := by
  rw [extract_kcal_lookup]; rfl

theorem extract_kcal_protein_serving (raw : List (String × JVal)) :
    jlookup "protein_serving" (extract_kcal raw) =
      (if (pyGet raw "proteins_serving").isNull then none else some (pyGet raw "proteins_serving")) := by
  rw [extract_kcal_lookup]; rfl

theorem extract_kcal_fat_serving (raw : List (String × JVal)) :
    jlookup "fat_serving" (extract_kcal raw) =
      (if (pyGet raw "fat_serving").isNull then none else some (pyGet raw "fat_serving")) := by
  rw [extract_kcal_lookup]; rfl

theorem extract_kcal_carbs_serving (raw : List (String × JVal)) :
    jlookup "carbs_serving" (extract_kcal raw) =
      (if (pyGet raw "carbohydrates_serving").isNull then none else some (pyGet raw "carbohydrates_serving")) := by
  rw [extract_kcal_lookup]; rfl

theorem JVal.isNull_of_truthy {v : JVal} (h : v.truthy = true) : v.isNull = false := by
  cases v <;> simp_all [JVal.truthy, JVal.isNull]

/-! ### HTTP layer (`get_product_by_barcode`, `search_products`) -/

/-- `BASE` (`src/main2.py` line 10). -/
def BASE : String := "https://world.openfoodfacts.org"

/-- `HEADERS` (line 12): the fixed identifying client header sent with every
request. -/
def HEADERS : List (String × String) :=
  [("User-Agent", "Darcons-Trade-CalorieFetcher/1.0 (+https://darcons-trade.example)")]

/-- Default `fields` of `get_product_by_barcode` (line 22). -/
def default_barcode_fields : String :=
  "code,product_name,nutriments,brands,quantity,serving_size,language,lang,lc"

/-- Default `fields` of `search_products` (line 36). -/
def default_search_fields : String :=
  "code,product_name,brands,nutriments,quantity,serving_size,ecoscore_grade"

/-- The data of one `requests.get` call: URL, query parameters, headers and
timeout in seconds. -/
structure HttpRequest where
  url : String
  params : List (String × String)
  headers : List (String × String)
  timeout : Nat

/-- The request built by `get_product_by_barcode` (lines 17-27). -/
def get_product_by_barcode_request (barcode : String) (fields : Option String)
    (lang country : String) : HttpRequest :=
  { url := BASE ++ "/api/v2/product/" ++ barcode,
    params := [("fields", fields.getD default_barcode_fields), ("lc", lang), ("cc", country)],
    headers := HEADERS,
    timeout := 20 }

/-- The list of network calls one `get_product_by_barcode` invocation
performs: exactly one, there is no retry loop in the source. -/
def get_product_by_barcode_calls (barcode : String) (fields : Option String)
    (lang country : String) : List HttpRequest :=
  [get_product_by_barcode_request barcode fields lang country]

/-- The request built by `search_products` (lines 30-47). -/
def search_products_request (query : String) (page_size : Nat) (fields : Option String)
    (lang country : String) : HttpRequest :=
  { url := BASE ++ "/api/v2/search",
    params := [("search_terms", query), ("fields", fields.getD default_search_fields),
               ("page_size", toString page_size), ("lc", lang), ("cc", country)],
    headers := HEADERS,
    timeout := 20 }

/-- The list of network calls one `search_products` invocation performs:
exactly one, there is no retry loop in the source. -/
def search_products_calls (query : String) (page_size : Nat) (fields : Option String)
    (lang country : String) : List HttpRequest :=
  [search_products_request query page_size fields lang country]

/-! ### The worker thread `SearchWorker` -/

/-- Outcome of the single blocking network call made inside
`SearchWorker.run`: a decoded 2xx JSON body (a dictionary, per the `-> dict`
annotations of `get_product_by_barcode` and `search_products`), or a raised
`requests.exceptions.RequestException` (non-2xx status via
`raise_for_status`, or transport failure: DNS, timeout, connection reset), or
any other raised failure. -/
inductive FetchOutcome where
  | ok (body : List (String × JVal))
  | requestExc (msg : String)
  | otherExc (msg : String)

/-- A signal emitted by the worker: `finished` with the products dictionary,
or `error` with a message. -/
inductive Emitted where
  | finished (payload : List (String × JVal))
  | error (msg : String)

/-- Whether the signal went to the failure channel. -/
def Emitted.isError : Emitted → Bool
  | .error _ => true
  | .finished _ => false

/-- Lines 84-87: wrap the barcode fetch result into a table-compatible
dictionary. The test `if result.get("product")` is Python truthiness. -/
def barcode_products (result : List (String × JVal)) : List (String × JVal) :=
  if (pyGet result "product").truthy
  then [("products", JVal.arr [pyGet result "product"])]
  else [("products", JVal.arr [])]

/-- `SearchWorker.run` (lines 79-95) as a function from the network call's
outcome to the emitted signal: on success the barcode branch wraps the
product, the name branch passes the search payload through; a
`RequestException` emits the network-error message, any other failure the
generic error message. Every branch emits exactly one signal. -/
def SearchWorker.run (search_type : String) (outcome : FetchOutcome) : Emitted :=
  match outcome with
  | .ok body =>
      if search_type = "barcode" then .finished (barcode_products body)
      else .finished body
  | .requestExc msg => .error ("Ошибка сети: " ++ msg)
  | .otherExc msg => .error ("Ошибка: " ++ msg)

/-- The product rows a finished payload renders:
`products.get('products', [])` (lines 234, 241, 255). -/
def payload_rows (payload : List (String × JVal)) : List JVal :=
  match jlookup "products" payload with
  | some (JVal.arr xs) => xs
  | _ => []

/-! ### The coordinator `CalorieFinderApp` -/

/-- The widget state the coordinator's handlers touch: the two search
buttons, the two progress bars, the two result tables and the status bar. -/
structure UIState where
  barcode_search_btn_enabled : Bool
  name_search_btn_enabled : Bool
  barcode_progress_visible : Bool
  name_progress_visible : Bool
  barcode_table : List JVal
  name_table : List JVal
  status : String

/-- `on_barcode_search_finished` (lines 230-235): re-enable the button, hide
the progress bar, render the rows, update the status bar. -/
def on_barcode_search_finished (s : UIState) (products : List (String × JVal)) : UIState :=
  { s with barcode_search_btn_enabled := true,
           barcode_progress_visible := false,
           barcode_table := payload_rows products,
           status := "Найдено продуктов: " ++ toString (payload_rows products).length }

/-- `on_name_search_finished` (lines 237-242). -/
def on_name_search_finished (s : UIState) (products : List (String × JVal)) : UIState :=
  { s with name_search_btn_enabled := true,
           name_progress_visible := false,
           name_table := payload_rows products,
           status := "Найдено продуктов: " ++ toString (payload_rows products).length }

/-- `on_search_error` (lines 244-252): re-enable both buttons, hide both
progress bars, show the message in a modal dialog (not part of the retained
state), set the status bar. -/
def on_search_error (s : UIState) (_msg : String) : UIState :=
  { s with barcode_search_btn_enabled := true,
           name_search_btn_enabled := true,
           barcode_progress_visible := false,
           name_progress_visible := false,
           status := "Ошибка при поиске" }

/-- Coordinator state: the widgets, the signal connections made so far
(worker id ↦ search type; the source connects signals at start and never
disconnects them), the current `self.search_worker` handle (overwritten on
every start), and the log of terminal callbacks delivered to the caller. -/
structure AppState where
  ui : UIState
  connections : List (Nat × String)
  search_worker : Option Nat
  delivered : List Emitted

/-- Python `str.strip()` applied to the query text: drop leading and
trailing whitespace characters. -/
def py_strip (s : String) : String :=
  String.mk (((s.data.dropWhile Char.isWhitespace).reverse.dropWhile Char.isWhitespace).reverse)

/-- `search_by_barcode` (lines 198-212): a blank query shows a warning and
returns; otherwise disable the button, show the progress bar, create a fresh
worker, connect its signals and overwrite the `self.search_worker` handle. -/
def search_by_barcode (s : AppState) (id : Nat) (query : String) : AppState :=
  if py_strip query = "" then s
  else
    { s with
      ui := { s.ui with barcode_search_btn_enabled := false,
                        barcode_progress_visible := true,
                        status := "Поиск по штрихкоду..." },
      connections := (id, "barcode") :: s.connections,
      search_worker := some id }

/-- `search_by_name` (lines 214-228). -/
def search_by_name (s : AppState) (id : Nat) (query : String) : AppState :=
  if py_strip query = "" then s
  else
    { s with
      ui := { s.ui with name_search_btn_enabled := false,
                        name_progress_visible := true,
                        status := "Поиск по названию..." },
      connections := (id, "name") :: s.connections,
      search_worker := some id }

/-- Completion of worker `id` with the outcome of its network call: the
worker emits its signal and, because the connection made at start time is
never disconnected and the handler never compares `id` against the current
`search_worker` handle, the connected handler runs and the callback is
delivered unconditionally. -/
def worker_complete (s : AppState) (id : Nat) (outcome : FetchOutcome) : AppState :=
  match List.lookup id s.connections with
  | none => s
  | some ty =>
      match SearchWorker.run ty outcome with
      | Emitted.finished products =>
          { s with
            ui := if ty = "barcode" then on_barcode_search_finished s.ui products
                  else on_name_search_finished s.ui products,
            delivered := s.delivered ++ [Emitted.finished products] }
      | Emitted.error msg =>
          { s with ui := on_search_error s.ui msg,
                   delivered := s.delivered ++ [Emitted.error msg] }

/-- Widget state set up in `initUI` (lines 103-196): buttons enabled,
progress bars hidden, tables empty, status bar ready. -/
def initial_ui : UIState :=
  { barcode_search_btn_enabled := true,
    name_search_btn_enabled := true,
    barcode_progress_visible := false,
    name_progress_visible := false,
    barcode_table := [],
    name_table := [],
    status := "Готов к поиску" }

/-- Coordinator state right after `initUI`: no worker yet, nothing
delivered. -/
def initial_app : AppState :=
  { ui := initial_ui, connections := [], search_worker := none, delivered := [] }

/-! ### Claim C1: single-flight supersession -/

/-- Decoded 2xx body of the barcode fetch for query "123". -/
def body123 : List (String × JVal) :=
  [("product", JVal.obj [("code", JVal.str "123")])]

/-- Decoded 2xx body of the barcode fetch for query "456". -/
def body456 : List (String × JVal) :=
  [("product", JVal.obj [("code", JVal.str "456")])]

/-- The race of spec §8: two rapid barcode `start()` calls with queries "123"
then "456" (worker ids 1 and 2); worker 2's response arrives first, the
superseded worker 1's response arrives last. -/
def superseded_trace : AppState :=
  worker_complete
    (worker_complete
      (search_by_barcode (search_by_barcode initial_app 1 "123") 2 "456")
      2 (FetchOutcome.ok body456))
    1 (FetchOutcome.ok body123)

/-- Claim C1, evaluation at the failing input: in the two-start race the code
delivers TWO terminal callbacks, and the late-arriving result of the
superseded request "123" is rendered last, overwriting the newer "456" rows —
the claim requires exactly one callback, carrying the result for "456", with
the stale result discarded. The source never disconnects or invalidates a
superseded worker's signal connection (it only overwrites the
`self.search_worker` handle), so the stale callback goes through. -/
theorem C1_superseded_result_delivered :
    superseded_trace.delivered =
      [Emitted.finished [("products", JVal.arr [JVal.obj [("code", JVal.str "456")]])],
       Emitted.finished [("products", JVal.arr [JVal.obj [("code", JVal.str "123")]])]] ∧
    superseded_trace.ui.barcode_table = [JVal.obj [("code", JVal.str "123")]] :=
  ⟨rfl, rfl⟩

/-! ### Claims C2-C4: the normalizer -/

/-- Nutrient mapping with a present, non-null but falsy primary kcal key. -/
def kcal_zero_raw : List (String × JVal) :=
  [("energy-kcal_100g", JVal.num 0), ("energy-kcal_value", JVal.num 120)]

/-- Claim C2, counterexample: in the mapping with `energy-kcal_100g = 0` and
`energy-kcal_value = 120` the primary key is present and non-null, yet the
output `kcal_100g` is 120, not 0 — Python `or` falls through on every falsy
value, not only on `None`. -/
theorem C2_counterexample :
    jlookup "energy-kcal_100g" kcal_zero_raw = some (JVal.num 0) ∧
    (JVal.num 0).isNull = false ∧
    jlookup "kcal_100g" (extract_kcal kcal_zero_raw) = some (JVal.num 120) ∧
    JVal.num 120 ≠ JVal.num 0 :=
  ⟨rfl, rfl, rfl, by simp⟩

/-- Claim C2 (amended): the kcal fallback is decided by Python truthiness,
not by absence/null alone: whenever `energy-kcal_100g` holds a truthy value
the output `kcal_100g` equals it unchanged, and the claim's concrete example
holds — a null primary with `energy-kcal_value = 120` yields
`kcal_100g = 120`. -/
theorem C2_kcal_primary_truthy (raw : List (String × JVal))
    (h : (pyGet raw "energy-kcal_100g").truthy = true) :
    jlookup "kcal_100g" (extract_kcal raw) = some (pyGet raw "energy-kcal_100g") ∧
    jlookup "kcal_100g"
        (extract_kcal [("energy-kcal_100g", JVal.null), ("energy-kcal_value", JVal.num 120)]) =
      some (JVal.num 120) := by
  constructor
  · rw [extract_kcal_kcal_100g]
    simp [pyOr, h, JVal.isNull_of_truthy h]
  · rfl

/-- Witness for C2: a truthy primary value 250 is passed through. -/
theorem C2_kcal_primary_truthy_witness :
    jlookup "kcal_100g" (extract_kcal [("energy-kcal_100g", JVal.num 250)]) =
      some (pyGet [("energy-kcal_100g", JVal.num 250)] "energy-kcal_100g") ∧
    jlookup "kcal_100g"
        (extract_kcal [("energy-kcal_100g", JVal.null), ("energy-kcal_value", JVal.num 120)]) =
      some (JVal.num 120) :=
  C2_kcal_primary_truthy [("energy-kcal_100g", JVal.num 250)] rfl

/-- Nutrient mapping whose primary kcal key is present and non-null (0) with
no fallback key. -/
def kcal_zero_only : List (String × JVal) :=
  [("energy-kcal_100g", JVal.num 0)]

/-- Claim C3, counterexample: in the mapping with only `energy-kcal_100g = 0`
the provider key exists with a non-null value, yet the output contains no
`kcal_100g` field at all — presence of the kcal field follows truthiness of
the fallback chain, not presence-with-non-null of the provider key. -/
theorem C3_counterexample :
    jlookup "energy-kcal_100g" kcal_zero_only = some (JVal.num 0) ∧
    (JVal.num 0).isNull = false ∧
    jlookup "kcal_100g" (extract_kcal kcal_zero_only) = none :=
  ⟨rfl, rfl, rfl⟩

/-- Claim C3 (amended): for the seven directly-mapped fields the claim holds
as stated — the output field is present iff the provider key exists with a
non-null value, and the value is passed through unchanged (no parsing:
`pyGet` returns the stored `JVal`, strings included). For `kcal_100g` alone,
presence and value follow the truthiness fallback: the value of
`energy-kcal_100g` when truthy, else the value of `energy-kcal_value` when
non-null, else absent. In particular a mapping missing `proteins_100g` never
yields `protein_100g` (the second equation with a null lookup). -/
theorem C3_field_characterization (raw : List (String × JVal)) :
    (jlookup "protein_100g" (extract_kcal raw) =
      (if (pyGet raw "proteins_100g").isNull then none else some (pyGet raw "proteins_100g"))) ∧
    (jlookup "fat_100g" (extract_kcal raw) =
      (if (pyGet raw "fat_100g").isNull then none else some (pyGet raw "fat_100g"))) ∧
    (jlookup "carbs_100g" (extract_kcal raw) =
      (if (pyGet raw "carbohydrates_100g").isNull then none
       else some (pyGet raw "carbohydrates_100g"))) ∧
    (jlookup "kcal_serving" (extract_kcal raw) =
      (if (pyGet raw "energy-kcal_serving").isNull then none
       else some (pyGet raw "energy-kcal_serving"))) ∧
    (jlookup "protein_serving" (extract_kcal raw) =
      (if (pyGet raw "proteins_serving").isNull then none
       else some (pyGet raw "proteins_serving"))) ∧
    (jlookup "fat_serving" (extract_kcal raw) =
      (if (pyGet raw "fat_serving").isNull then none else some (pyGet raw "fat_serving"))) ∧
    (jlookup "carbs_serving" (extract_kcal raw) =
      (if (pyGet raw "carbohydrates_serving").isNull then none
       else some (pyGet raw "carbohydrates_serving"))) ∧
    (jlookup "kcal_100g" (extract_kcal raw) =
      (if (pyGet raw "energy-kcal_100g").truthy then some (pyGet raw "energy-kcal_100g")
       else if (pyGet raw "energy-kcal_value").isNull then none
       else some (pyGet raw "energy-kcal_value"))) := by
  refine ⟨extract_kcal_protein_100g raw, extract_kcal_fat_100g raw,
          extract_kcal_carbs_100g raw, extract_kcal_kcal_serving raw,
          extract_kcal_protein_serving raw, extract_kcal_fat_serving raw,
          extract_kcal_carbs_serving raw, ?_⟩
  rw [extract_kcal_kcal_100g]
  cases htr : (pyGet raw "energy-kcal_100g").truthy with
  | true => simp [pyOr, htr, JVal.isNull_of_truthy htr]
  | false => simp [pyOr, htr]

/-- Claim C4: the normalizer is total by construction in this embedding (a
plain function on association lists, defined for every input), its output
never retains a null value, and on the empty mapping it returns the empty
record. -/
theorem C4_total_and_empty :
    extract_kcal [] = [] ∧
    ∀ raw : List (String × JVal), (extract_kcal raw).all (fun p => !p.2.isNull) = true := by
  refine ⟨rfl, ?_⟩
  intro raw
  rw [List.all_eq_true]
  intro p hp
  exact (List.mem_filter.mp hp).2

/-! ### Claims C5-C7, C10: the worker's outcome classification -/

/-- Claim C5: on a 2xx barcode response whose `product` field is absent or
null, the worker emits success with zero rows; when `product` holds a
(nonempty) product record it emits success with exactly that product wrapped
in a one-element sequence. -/
theorem C5_barcode_product_wrapping (body : List (String × JVal)) :
    ((pyGet body "product").isNull = true →
      SearchWorker.run "barcode" (FetchOutcome.ok body) =
        Emitted.finished [("products", JVal.arr [])]) ∧
    (∀ fs : List (String × JVal), fs ≠ [] →
      jlookup "product" body = some (JVal.obj fs) →
      SearchWorker.run "barcode" (FetchOutcome.ok body) =
        Emitted.finished [("products", JVal.arr [JVal.obj fs])]) := by
  constructor
  · intro h
    have htr : (pyGet body "product").truthy = false := by
      cases hv : pyGet body "product" <;> simp_all [JVal.isNull, JVal.truthy]
    simp [SearchWorker.run, barcode_products, htr]
  · intro fs hfs hlook
    have hpg : pyGet body "product" = JVal.obj fs := by simp [pyGet, hlook]
    have htr : (JVal.obj fs).truthy = true := by
      cases fs with
      | nil => exact absurd rfl hfs
      | cons a l => rfl
    simp [SearchWorker.run, barcode_products, hpg, htr]

/-- Witness for C5: a null `product` yields zero rows; `product` holding the
record with code "1" yields that record alone. -/
theorem C5_barcode_product_wrapping_witness :
    SearchWorker.run "barcode" (FetchOutcome.ok [("product", JVal.null)]) =
      Emitted.finished [("products", JVal.arr [])] ∧
    SearchWorker.run "barcode" (FetchOutcome.ok [("product", JVal.obj [("code", JVal.str "1")])]) =
      Emitted.finished [("products", JVal.arr [JVal.obj [("code", JVal.str "1")]])] :=
  ⟨(C5_barcode_product_wrapping [("product", JVal.null)]).1 rfl,
   (C5_barcode_product_wrapping [("product", JVal.obj [("code", JVal.str "1")])]).2
     [("code", JVal.str "1")] (by simp) rfl⟩

/-- Claim C6: a name search whose 2xx response holds zero matching products
is emitted on the success channel as the unchanged payload, and the rows it
renders are the empty sequence. -/
theorem C6_empty_search_success (body : List (String × JVal))
    (h : jlookup "products" body = some (JVal.arr [])) :
    SearchWorker.run "name" (FetchOutcome.ok body) = Emitted.finished body ∧
    payload_rows body = [] := by
  constructor
  · rfl
  · simp [payload_rows, h]

/-- Witness for C6 at the payload with an empty products list. -/
theorem C6_empty_search_success_witness :
    SearchWorker.run "name" (FetchOutcome.ok [("products", JVal.arr [])]) =
      Emitted.finished [("products", JVal.arr [])] ∧
    payload_rows [("products", JVal.arr [])] = [] :=
  C6_empty_search_success [("products", JVal.arr [])] rfl

/-- Claim C7: a raised `RequestException` (non-2xx status or transport
failure) is emitted on the error channel with the network prefix and the
underlying message; any other raised failure is emitted on the error channel
with the generic prefix; and every non-success outcome reaches the error
channel — none is swallowed. -/
theorem C7_error_classification (st msg : String) (o : FetchOutcome) :
    SearchWorker.run st (FetchOutcome.requestExc msg) =
      Emitted.error ("Ошибка сети: " ++ msg) ∧
    SearchWorker.run st (FetchOutcome.otherExc msg) =
      Emitted.error ("Ошибка: " ++ msg) ∧
    ((∀ b : List (String × JVal), o ≠ FetchOutcome.ok b) →
      (SearchWorker.run st o).isError = true) := by
  refine ⟨rfl, rfl, ?_⟩
  intro h
  cases o with
  | ok b => exact absurd rfl (h b)
  | requestExc m => rfl
  | otherExc m => rfl

/-- Witness for C7 at a concrete timeout failure on the barcode slot. -/
theorem C7_error_classification_witness :
    SearchWorker.run "barcode" (FetchOutcome.requestExc "timeout") =
      Emitted.error ("Ошибка сети: " ++ "timeout") ∧
    SearchWorker.run "barcode" (FetchOutcome.otherExc "timeout") =
      Emitted.error ("Ошибка: " ++ "timeout") ∧
    (SearchWorker.run "barcode" (FetchOutcome.requestExc "timeout")).isError = true :=
  let h := C7_error_classification "barcode" "timeout" (FetchOutcome.requestExc "timeout")
  ⟨h.1, h.2.1, h.2.2 (fun _ hb => FetchOutcome.noConfusion hb)⟩

/-- Claim C10: on a 2xx barcode response whose `product` field is present,
non-null but falsy (such as the empty mapping), the worker emits success with
zero rows, exactly as for an absent or null `product` — the code's test is
truthiness, not presence. -/
theorem C10_falsy_product_zero_rows (body : List (String × JVal)) (v : JVal)
    (hmem : jlookup "product" body = some v) (_hnn : v.isNull = false)
    (hf : v.truthy = false) :
    SearchWorker.run "barcode" (FetchOutcome.ok body) =
      Emitted.finished [("products", JVal.arr [])] := by
  have hpg : pyGet body "product" = v := by simp [pyGet, hmem]
  simp [SearchWorker.run, barcode_products, hpg, hf]

/-- Witness for C10 at a body whose `product` is the empty mapping. -/
theorem C10_falsy_product_zero_rows_witness :
    SearchWorker.run "barcode" (FetchOutcome.ok [("product", JVal.obj [])]) =
      Emitted.finished [("products", JVal.arr [])] :=
  C10_falsy_product_zero_rows [("product", JVal.obj [])] (JVal.obj []) rfl rfl rfl

/-! ### Claim C8: fixed endpoints, parameters, header and timeout -/

/-- Claim C8: every barcode fetch and every name search performs exactly one
network call (no retry), with a 20-second timeout, against the provider's
fixed endpoints, with the specified query parameters, both carrying the fixed
identifying client header. -/
theorem C8_request_shape (barcode query lang country : String)
    (fields : Option String) (page_size : Nat) :
    get_product_by_barcode_calls barcode fields lang country =
      [get_product_by_barcode_request barcode fields lang country] ∧
    (get_product_by_barcode_request barcode fields lang country).timeout = 20 ∧
    (get_product_by_barcode_request barcode fields lang country).headers = HEADERS ∧
    (get_product_by_barcode_request barcode fields lang country).url =
      BASE ++ "/api/v2/product/" ++ barcode ∧
    (get_product_by_barcode_request barcode fields lang country).params =
      [("fields", fields.getD default_barcode_fields), ("lc", lang), ("cc", country)] ∧
    search_products_calls query page_size fields lang country =
      [search_products_request query page_size fields lang country] ∧
    (search_products_request query page_size fields lang country).timeout = 20 ∧
    (search_products_request query page_size fields lang country).headers = HEADERS ∧
    (search_products_request query page_size fields lang country).url =
      BASE ++ "/api/v2/search" ∧
    (search_products_request query page_size fields lang country).params =
      [("search_terms", query), ("fields", fields.getD default_search_fields),
       ("page_size", toString page_size), ("lc", lang), ("cc", country)] :=
  ⟨rfl, rfl, rfl, rfl, rfl, rfl, rfl, rfl, rfl, rfl⟩

/-! ### Claim C9: indicators reset on every terminal path -/

/-- Claim C9: each terminal handler clears the in-progress indicator of its
slot unconditionally — from any widget state, the success handlers re-enable
the slot's button and hide its progress bar, and the error handler re-enables
both buttons and hides both progress bars; a transport timeout is classified
as a network error and, delivered through the error handler, leaves the
indicators cleared. -/
theorem C9_indicator_reset (s : UIState) (products : List (String × JVal)) (msg : String) :
    (on_barcode_search_finished s products).barcode_search_btn_enabled = true ∧
    (on_barcode_search_finished s products).barcode_progress_visible = false ∧
    (on_name_search_finished s products).name_search_btn_enabled = true ∧
    (on_name_search_finished s products).name_progress_visible = false ∧
    (on_search_error s msg).barcode_search_btn_enabled = true ∧
    (on_search_error s msg).barcode_progress_visible = false ∧
    (on_search_error s msg).name_search_btn_enabled = true ∧
    (on_search_error s msg).name_progress_visible = false ∧
    SearchWorker.run "barcode" (FetchOutcome.requestExc msg) =
      Emitted.error ("Ошибка сети: " ++ msg) ∧
    (on_search_error s ("Ошибка сети: " ++ msg)).barcode_progress_visible = false :=
  ⟨rfl, rfl, rfl, rfl, rfl, rfl, rfl, rfl, rfl, rfl⟩
